import Mathlib

/-!
Verification of the document patch builder and row-processing loop of the
RFP-API service (`src/main_flask.py`, handler `generate_multiple_rfp_sections`).
The loop builds a batch of Google-Docs edit requests from spreadsheet rows:
for each surviving row it appends an insert-newline request, an insert-heading
request, a heading-style request and an insert-body request, advancing a
single integer cursor (`end_index`) by the exact number of characters each
insertion adds.
-/

namespace RfpApi

/-- A generated section: the model's text blob split at its first newline into
a heading (first line, stripped) and a body (the remainder, stripped, or the
empty string when there is no second line), as in `src/main_flask.py`
lines 123-126. -/
structure RfpSection where
  heading : String
  body : String
  deriving DecidableEq

/-- One Google-Docs batch-update request as the handler builds them: an
`insertText` request carrying a location index and the text to insert, or an
`updateParagraphStyle` request (always the HEADING_2 named style here)
carrying a start/end index range. -/
inductive EditOp where
  | insertText (index : Nat) (text : String)
  | applyHeadingStyle (startIndex : Nat) (endIndex : Nat)
  deriving DecidableEq

/-- The document offset a request addresses: the location index of an
`insertText`, the start index of an `applyHeadingStyle` range. -/
def EditOp.offset : EditOp → Nat
  | .insertText i _ => i
  | .applyHeadingStyle s _ => s

/-- One iteration of the request-building part of the row loop
(`src/main_flask.py` lines 128-162): given the accumulated `requests` list and
the current `end_index`, append the newline insert, the heading insert, the
heading-style request and the body insert, advancing `end_index` exactly as
the Python code does (`+= 1`, `+= len(heading) + 1`, `+= len(body) + 2`). -/
def processSection (st : List EditOp × Nat) (s : RfpSection) : List EditOp × Nat :=
  let requests := st.1
  let end_index := st.2
  let requests := requests ++ [EditOp.insertText end_index "\n"]
  let end_index := end_index + 1
  let requests := requests ++ [EditOp.insertText end_index (s.heading ++ "\n")]
  let requests := requests ++
    [EditOp.applyHeadingStyle end_index (end_index + s.heading.length + 1)]
  let end_index := end_index + (s.heading.length + 1)
  let requests := requests ++ [EditOp.insertText end_index (s.body ++ "\n\n")]
  let end_index := end_index + (s.body.length + 2)
  (requests, end_index)

/-- The document patch builder: starting from an empty request list and the
document's initial end-of-content offset, run the per-section loop body over
the sections in order. Returns the request list and the final cursor. -/
def buildPatch (initialOffset : Nat) (secs : List RfpSection) : List EditOp × Nat :=
  secs.foldl processSection ([], initialOffset)

/-- The four requests the loop appends for a single section when the cursor
is `c`, in emission order. -/
def sectionOps (c : Nat) (s : RfpSection) : List EditOp :=
  [EditOp.insertText c "\n",
   EditOp.insertText (c + 1) (s.heading ++ "\n"),
   EditOp.applyHeadingStyle (c + 1) (c + 1 + s.heading.length + 1),
   EditOp.insertText (c + 1 + s.heading.length + 1) (s.body ++ "\n\n")]

/-- Total number of characters one section inserts: the leading newline, the
heading plus its newline, and the body plus its two newlines. -/
def sectionLen (s : RfpSection) : Nat :=
  1 + s.heading.length + 1 + s.body.length + 2

/-- Structural recursion describing the builder: the per-section blocks
concatenated, with the cursor advanced by `sectionLen` per section. -/
def buildAux : Nat → List RfpSection → List EditOp × Nat
  | c, [] => ([], c)
  | c, s :: rest =>
    let r := buildAux (c + sectionLen s) rest
    (sectionOps c s ++ r.1, r.2)

/-- The cursor value in force when the loop starts section `i`: the initial
offset plus the lengths of all earlier sections. -/
def cursorAt (c : Nat) (secs : List RfpSection) (i : Nat) : Nat :=
  c + ((secs.take i).map sectionLen).sum

theorem processSection_eq (st : List EditOp × Nat) (s : RfpSection) :
    processSection st s = (st.1 ++ sectionOps st.2 s, st.2 + sectionLen s) := by
  obtain ⟨acc, c⟩ := st
  simp only [processSection, sectionOps, sectionLen, List.append_assoc,
    List.cons_append, List.nil_append, Prod.mk.injEq]
  constructor
  · rfl
  · omega

theorem foldl_processSection (secs : List RfpSection) (acc : List EditOp) (c : Nat) :
    List.foldl processSection (acc, c) secs =
      (acc ++ (buildAux c secs).1, (buildAux c secs).2) := by
  induction secs generalizing acc c with
  | nil => simp [buildAux]
  | cons s rest ih =>
    simp only [List.foldl_cons, processSection_eq, buildAux, ih, List.append_assoc]

theorem buildPatch_eq (off : Nat) (secs : List RfpSection) :
    buildPatch off secs = buildAux off secs := by
  simp [buildPatch, foldl_processSection]

theorem buildAux_length (c : Nat) (secs : List RfpSection) :
    (buildAux c secs).1.length = 4 * secs.length := by
  induction secs generalizing c with
  | nil => simp [buildAux]
  | cons s rest ih =>
    simp only [buildAux, List.length_append, List.length_cons, ih, sectionOps,
      List.length_nil]
    omega

theorem buildAux_cursor (c : Nat) (secs : List RfpSection) :
    (buildAux c secs).2 = c + (secs.map sectionLen).sum := by
  induction secs generalizing c with
  | nil => simp [buildAux]
  | cons s rest ih =>
    simp only [buildAux, ih, List.map_cons, List.sum_cons]
    omega

theorem buildAux_block (c : Nat) (secs : List RfpSection) (i : Fin secs.length) :
    ((buildAux c secs).1.drop (4 * i.val)).take 4 =
      sectionOps (cursorAt c secs i.val) (secs.get i) := by
  induction secs generalizing c with
  | nil => exact absurd i.isLt (by simp)
  | cons s rest ih =>
    match i with
    | ⟨0, _⟩ =>
      simp [buildAux, cursorAt, sectionOps]
    | ⟨j + 1, hj⟩ =>
      have hrest := ih (c + sectionLen s) ⟨j, by simpa using hj⟩
      have hmul : 4 * (j + 1) = 4 * j + 4 := by omega
      have hdrop : ((buildAux c (s :: rest)).1).drop (4 * (j + 1)) =
          ((buildAux (c + sectionLen s) rest).1).drop (4 * j) := by
        rw [hmul]
        have : (buildAux c (s :: rest)).1 =
            sectionOps c s ++ (buildAux (c + sectionLen s) rest).1 := rfl
        rw [this]
        have hlen : (sectionOps c s).length = 4 := rfl
        calc (sectionOps c s ++ (buildAux (c + sectionLen s) rest).1).drop (4 * j + 4)
            = (sectionOps c s ++ (buildAux (c + sectionLen s) rest).1).drop
                ((sectionOps c s).length + 4 * j) := by rw [hlen]; ring_nf
          _ = ((buildAux (c + sectionLen s) rest).1).drop (4 * j) := by
              rw [List.drop_append]
      have hcursor : cursorAt c (s :: rest) (j + 1) = cursorAt (c + sectionLen s) rest j := by
        simp [cursorAt, Nat.add_assoc]
      rw [hdrop, hcursor]
      simpa using hrest

/-- Instrumented copy of `processSection`: the same loop body, but each
appended request is recorded together with the value `end_index` held at the
moment it was appended. Used to state the cursor/offset bookkeeping invariant. -/
def processSectionT (st : List (EditOp × Nat) × Nat) (s : RfpSection) :
    List (EditOp × Nat) × Nat :=
  let requests := st.1
  let end_index := st.2
  let requests := requests ++ [(EditOp.insertText end_index "\n", end_index)]
  let end_index := end_index + 1
  let requests := requests ++ [(EditOp.insertText end_index (s.heading ++ "\n"), end_index)]
  let requests := requests ++
    [(EditOp.applyHeadingStyle end_index (end_index + s.heading.length + 1), end_index)]
  let end_index := end_index + (s.heading.length + 1)
  let requests := requests ++ [(EditOp.insertText end_index (s.body ++ "\n\n"), end_index)]
  let end_index := end_index + (s.body.length + 2)
  (requests, end_index)

/-- The instrumented builder: like `buildPatch`, with each request paired with
the cursor value at its append time. -/
def buildPatchT (initialOffset : Nat) (secs : List RfpSection) :
    List (EditOp × Nat) × Nat :=
  secs.foldl processSectionT ([], initialOffset)

theorem processSectionT_eq (st : List (EditOp × Nat) × Nat) (s : RfpSection) :
    processSectionT st s =
      (st.1 ++ (sectionOps st.2 s).map (fun op => (op, EditOp.offset op)),
       st.2 + sectionLen s) := by
  obtain ⟨acc, c⟩ := st
  simp only [processSectionT, sectionOps, sectionLen, EditOp.offset, List.map_cons,
    List.map_nil, List.append_assoc, List.cons_append, List.nil_append, Prod.mk.injEq]
  constructor
  · rfl
  · omega

theorem foldl_processSectionT (secs : List RfpSection) (acc : List (EditOp × Nat))
    (c : Nat) :
    List.foldl processSectionT (acc, c) secs =
      (acc ++ (buildAux c secs).1.map (fun op => (op, EditOp.offset op)),
       (buildAux c secs).2) := by
  induction secs generalizing acc c with
  | nil => simp [buildAux]
  | cons s rest ih =>
    simp only [List.foldl_cons, processSectionT_eq, buildAux, ih, List.map_append,
      List.append_assoc]

theorem buildPatchT_eq (off : Nat) (secs : List RfpSection) :
    buildPatchT off secs =
      ((buildAux off secs).1.map (fun op => (op, EditOp.offset op)),
       (buildAux off secs).2) := by
  simp [buildPatchT, foldl_processSectionT]

theorem buildAux_head_offset (c : Nat) (secs : List RfpSection) :
    ∀ op ∈ (buildAux c secs).1.head?, EditOp.offset op = c := by
  cases secs with
  | nil => simp [buildAux]
  | cons s rest => simp [buildAux, sectionOps, EditOp.offset]

theorem buildAux_offsets_chain (c : Nat) (secs : List RfpSection) :
    List.Chain' (fun a b => a ≤ b) ((buildAux c secs).1.map EditOp.offset) := by
  induction secs generalizing c with
  | nil => simp [buildAux]
  | cons s rest ih =>
    simp only [buildAux, sectionOps, List.cons_append, List.nil_append,
      List.map_cons, EditOp.offset]
    rw [List.chain'_cons, List.chain'_cons, List.chain'_cons, List.chain'_cons']
    refine ⟨by omega, by omega, by omega, ?_, ih (c + sectionLen s)⟩
    intro y hy
    rw [List.head?_map, Option.mem_map] at hy
    obtain ⟨op, hop, rfl⟩ := hy
    have hofs := buildAux_head_offset (c + sectionLen s) rest op hop
    rw [hofs]
    simp only [sectionLen]
    omega

/-- C1: for every list of sections and every initial offset, the builder emits
exactly 4N requests, and for each section `i` the four requests at positions
`4i .. 4i+3` are, in order, the newline insert, the heading insert, the
heading-style request over the heading, and the body insert, all addressed at
the cursor in force when section `i` starts. -/
theorem patch_builder_emits_four_ops_per_section (off : Nat) (secs : List RfpSection) :
    (buildPatch off secs).1.length = 4 * secs.length ∧
    ∀ i : Fin secs.length,
      ((buildPatch off secs).1.drop (4 * i.val)).take 4 =
        sectionOps (cursorAt off secs i.val) (secs.get i) := by
  rw [buildPatch_eq]
  exact ⟨buildAux_length off secs, fun i => buildAux_block off secs i⟩

/-- C2: the final cursor after processing all sections equals the initial
offset plus the sum over the sections of `1 + len(heading) + 1 + len(body) + 2`. -/
theorem final_cursor_formula (off : Nat) (secs : List RfpSection) :
    (buildPatch off secs).2 =
      off + (secs.map fun s => 1 + s.heading.length + 1 + s.body.length + 2).sum := by
  rw [buildPatch_eq, buildAux_cursor]
  rfl

/-- C3: for every section `i`, the heading-style request (position `4i+2`)
starts exactly at the offset of the heading insert emitted immediately before
it (position `4i+1`), and its range has width `len(heading) + 1`. -/
theorem heading_style_spans_heading (off : Nat) (secs : List RfpSection)
    (i : Fin secs.length) :
    ∃ st en,
      (buildPatch off secs).1[4 * i.val + 2]? =
        some (EditOp.applyHeadingStyle st en) ∧
      (buildPatch off secs).1[4 * i.val + 1]? =
        some (EditOp.insertText st ((secs.get i).heading ++ "\n")) ∧
      en - st = (secs.get i).heading.length + 1 := by
  have hblock := (patch_builder_emits_four_ops_per_section off secs).2 i
  set l := (buildPatch off secs).1 with hl
  refine ⟨cursorAt off secs i.val + 1,
    cursorAt off secs i.val + 1 + (secs.get i).heading.length + 1, ?_, ?_, ?_⟩
  · have h2 : l[4 * i.val + 2]? = (l.drop (4 * i.val))[2]? :=
      (List.getElem?_drop l (4 * i.val) 2).symm
    rw [h2, ← List.getElem?_take_of_lt (show 2 < 4 by omega), hblock]
    rfl
  · have h1 : l[4 * i.val + 1]? = (l.drop (4 * i.val))[1]? :=
      (List.getElem?_drop l (4 * i.val) 1).symm
    rw [h1, ← List.getElem?_take_of_lt (show 1 < 4 by omega), hblock]
    rfl
  · omega

/-- C4: the instrumented run produces exactly the builder's requests; every
request's offset equals the cursor value recorded when it was appended; the
offsets are monotonically non-decreasing across the sequence; the recorded
cursor values are non-decreasing as well, and the final cursor never drops
below the initial offset. -/
theorem offsets_equal_cursor_and_monotone (off : Nat) (secs : List RfpSection) :
    (buildPatchT off secs).1.map Prod.fst = (buildPatch off secs).1 ∧
    (∀ p ∈ (buildPatchT off secs).1, EditOp.offset p.1 = p.2) ∧
    List.Chain' (fun a b => a ≤ b) ((buildPatch off secs).1.map EditOp.offset) ∧
    List.Chain' (fun a b => a ≤ b) ((buildPatchT off secs).1.map Prod.snd) ∧
    off ≤ (buildPatch off secs).2 := by
  rw [buildPatchT_eq, buildPatch_eq]
  refine ⟨?_, ?_, ?_, ?_, ?_⟩
  · simp [List.map_map, Function.comp_def]
  · intro p hp
    rw [List.mem_map] at hp
    obtain ⟨op, _, rfl⟩ := hp
    rfl
  · exact buildAux_offsets_chain off secs
  · have hsnd : ((buildAux off secs).1.map (fun op => (op, EditOp.offset op))).map
        Prod.snd = (buildAux off secs).1.map EditOp.offset := by
      simp [List.map_map, Function.comp_def]
    rw [hsnd]
    exact buildAux_offsets_chain off secs
  · rw [buildAux_cursor]
    omega

/-- C5, counterexample: on `initialOffset = 100` with the single section
`("Security", "We comply.")` the builder does not produce the spec's value:
the spec's example claims final cursor 124, while the code (and the spec's own
sum formula, `100 + (1 + 8 + 1) + (10 + 2)`) gives 122. -/
theorem example_section_cursor_counterexample :
    buildPatch 100 [⟨ "Security", "We comply."⟩] ≠
      ([EditOp.insertText 100 "\n",
        EditOp.insertText 101 "Security\n",
        EditOp.applyHeadingStyle 101 110,
        EditOp.insertText 110 "We comply.\n\n"], 124) := by
  decide

/-- C5, amended: on `initialOffset = 100` with the single section
`("Security", "We comply.")` the builder produces exactly the four operations
the spec's example lists, and the final cursor equals 122 (not 124). -/
theorem example_section_exact_output :
    buildPatch 100 [⟨ "Security", "We comply."⟩] =
      ([EditOp.insertText 100 "\n",
        EditOp.insertText 101 "Security\n",
        EditOp.applyHeadingStyle 101 110,
        EditOp.insertText 110 "We comply.\n\n"], 122) := by
  decide

/-- C10: the patch builder is deterministic — two runs on equal initial
offsets and equal section sequences produce identical operation sequences and
final cursors. -/
theorem buildPatch_deterministic (off1 off2 : Nat) (s1 s2 : List RfpSection)
    (ho : off1 = off2) (hs : s1 = s2) :
    buildPatch off1 s1 = buildPatch off2 s2 := by
  rw [ho, hs]

/-- Witness for C10 at a concrete input. -/
theorem buildPatch_deterministic_witness :
    buildPatch 100 [⟨ "Security", "We comply."⟩] =
      buildPatch 100 [⟨ "Security", "We comply."⟩] :=
  buildPatch_deterministic 100 100 [⟨ "Security", "We comply."⟩]
    [⟨ "Security", "We comply."⟩] rfl rfl

/-- A spreadsheet row as the handler reads it: the optional "Requirement" and
"Response" cells. `none` models an absent key; cell values are modelled as
strings. -/
structure Row where
  requirement : Option String
  response : Option String
  deriving DecidableEq

/-- Python truthiness of the value `row.get(...)` returns: `None` and the
empty string are falsy, every non-empty string is truthy. This is the test
behind `if not requirement or not base_response` on line 85. -/
def truthy : Option String → Bool
  | none => false
  | some s => !(s == "")

/-- The external collaborators the row loop calls, supplied as oracles: the
FAISS similarity search (the page contents of the retrieved documents, or the
message of a raised exception; the fixed `k=3` is folded into the oracle), the
OpenAI chat completion (the generated text for a prompt, or the message of a
raised exception), and the Docs `batchUpdate` call. -/
structure Collab where
  similaritySearch : String → Except String (List String)
  chatCompletion : String → Except String String
  batchUpdate : List EditOp → Except String Unit

/-- The f-string prompt of `src/main_flask.py` lines 95-111 with its three
interpolated values. -/
def buildPrompt (requirement base_response context : String) : String :=
  "\nYou are a professional RFP proposal writer working for Fever, a global leader in ticketed experiences.\nYour goal is to craft a compelling, polished section of an RFP response based on:\n1. The RFP requirement below\n2. Fever's base feature response\n3. Additional supporting context pulled from internal documentation\n\nSection: "
    ++ requirement
    ++ "\n\nBase Response:\n"
    ++ base_response
    ++ "\n\nSupporting context:\n"
    ++ context
    ++ "\n\nWrite a clear, narrative, persuasive section. Start with a bold, clear heading derived from the requirement. Do not use markdown or hashtags. This heading should summarize the requirement. Then follow with the full response text.\n"

/-- Python `text.split("\n", 1)`: the part before the first newline, and the
remainder when a newline exists. -/
def splitFirstLine (text : String) : String × Option String :=
  match text.splitOn "\n" with
  | [] => (text, none)
  | [x] => (x, none)
  | x :: rest => (x, some (String.intercalate "\n" rest))

/-- The row loop of the handler (`src/main_flask.py` lines 81-162), running
from the given accumulated `requests` and cursor: a row with a falsy
requirement or response cell is skipped; otherwise the loop calls the
similarity search, builds the prompt, calls the chat completion, strips the
text, splits it at the first newline into heading and body (both stripped),
and appends the four requests via `processSection`. `Except.error` is an
exception raised by a collaborator: it aborts the loop and its message becomes
the handler's 500 response. -/
def processRows (co : Collab) :
    List Row → List EditOp → Nat → Except String (List EditOp × Nat)
  | [], requests, _end_index => .ok (requests, _end_index)
  | row :: rest, requests, end_index =>
    if !truthy row.requirement || !truthy row.response then
      processRows co rest requests end_index
    else
      let requirement := row.requirement.getD ""
      let base_response := row.response.getD ""
      match co.similaritySearch requirement with
      | .error e => .error ("Vector search failed: " ++ e)
      | .ok docs =>
        let context := String.intercalate "\n---\n" docs
        match co.chatCompletion (buildPrompt requirement base_response context) with
        | .error e => .error ("OpenAI call failed: " ++ e)
        | .ok raw =>
          let text := raw.trim
          let hb := splitFirstLine text
          let heading := hb.1.trim
          let body := match hb.2 with
            | some b => b.trim
            | none => ""
          let st := processSection (requests, end_index) ⟨heading, body⟩
          processRows co rest st.1 st.2

/-- The handler `generate_multiple_rfp_sections` from the row loop onward
(`src/main_flask.py` lines 81-172), given the collaborators, the spreadsheet
rows and the document's end-of-content index (the preamble that validates the
payload and obtains rows, index, vector store and clients is external
plumbing). Returns the HTTP status code and message, paired with the batch
passed to `batchUpdate` (`none` when `batchUpdate` was never called). -/
def generate_multiple_rfp_sections (co : Collab) (rows : List Row)
    (end_index : Nat) : (Nat × String) × Option (List EditOp) :=
  match processRows co rows [] end_index with
  | .error msg => ((500, msg), none)
  | .ok (requests, _) =>
    if requests.isEmpty then
      ((400, "No valid rows to process"), none)
    else
      match co.batchUpdate requests with
      | .error e => ((500, "Failed to update Google Doc: " ++ e), some requests)
      | .ok _ => ((200, "All sections inserted"), some requests)

/-- A concrete collaborator assignment for instantiating theorems on closed
inputs: the search finds no documents, the completion returns a fixed
two-line text, `batchUpdate` succeeds. -/
def okCollab : Collab where
  similaritySearch := fun _ => .ok []
  chatCompletion := fun _ => .ok "Security\nWe comply."
  batchUpdate := fun _ => .ok ()

/-- C6: a row whose requirement or response cell is absent contributes zero
operations, leaves the cursor unchanged and does not make the request fail:
the loop on that row behaves exactly as the loop on the remaining rows with
the same accumulator and cursor. -/
theorem missing_field_row_skipped (co : Collab) (row : Row) (rest : List Row)
    (requests : List EditOp) (end_index : Nat)
    (h : row.requirement = none ∨ row.response = none) :
    processRows co (row :: rest) requests end_index =
      processRows co rest requests end_index := by
  rcases h with h | h <;> simp [processRows, truthy, h]

/-- Witness for C6: a row with an absent requirement cell is skipped. -/
theorem missing_field_row_skipped_witness :
    processRows okCollab [⟨none, some "We comply."⟩] [] 1 =
      processRows okCollab [] [] 1 :=
  missing_field_row_skipped okCollab ⟨none, some "We comply."⟩ [] [] 1 (Or.inl rfl)

/-- C9: the skip test is Python truthiness of the cell values, not key
absence: a row whose requirement or response cell is present but holds the
empty (falsy) string is skipped exactly like a row with a missing cell. -/
theorem falsy_field_row_skipped (co : Collab) (row : Row) (rest : List Row)
    (requests : List EditOp) (end_index : Nat)
    (h : row.requirement = some "" ∨ row.response = some "") :
    processRows co (row :: rest) requests end_index =
      processRows co rest requests end_index := by
  rcases h with h | h <;> simp [processRows, truthy, h]

/-- Witness for C9: a present-but-empty requirement cell is skipped. -/
theorem falsy_field_row_skipped_witness :
    processRows okCollab [⟨some "", some "We comply."⟩] [] 1 =
      processRows okCollab [] [] 1 :=
  falsy_field_row_skipped okCollab ⟨some "", some "We comply."⟩ [] [] 1 (Or.inl rfl)

theorem processRows_all_skipped (co : Collab) (rows : List Row)
    (requests : List EditOp) (end_index : Nat)
    (h : ∀ r ∈ rows, truthy r.requirement = false ∨ truthy r.response = false) :
    processRows co rows requests end_index = .ok (requests, end_index) := by
  induction rows with
  | nil => rfl
  | cons row rest ih =>
    have hrow := h row (by simp)
    have hcond : (!truthy row.requirement || !truthy row.response) = true := by
      rcases hrow with h1 | h1 <;> simp [h1]
    rw [processRows, if_pos hcond]
    exact ih fun r hr => h r (by simp [hr])

/-- C7: when every row is filtered out, no request is accumulated and the
handler answers HTTP 400 with the "No valid rows to process" error, never
calling `batchUpdate`. -/
theorem no_valid_rows_rejected (co : Collab) (rows : List Row) (end_index : Nat)
    (h : ∀ r ∈ rows, truthy r.requirement = false ∨ truthy r.response = false) :
    generate_multiple_rfp_sections co rows end_index =
      ((400, "No valid rows to process"), none) := by
  have hrun := processRows_all_skipped co rows [] end_index h
  simp [generate_multiple_rfp_sections, hrun]

/-- Witness for C7: one row with both cells absent, one with empty cells. -/
theorem no_valid_rows_rejected_witness :
    generate_multiple_rfp_sections okCollab [⟨none, none⟩, ⟨some "", some ""⟩] 1 =
      ((400, "No valid rows to process"), none) :=
  no_valid_rows_rejected okCollab [⟨none, none⟩, ⟨some "", some ""⟩] 1 (by decide)

theorem processRows_error_source (co : Collab) (rows : List Row)
    (requests : List EditOp) (end_index : Nat) (msg : String)
    (h : processRows co rows requests end_index = .error msg) :
    (∃ e, msg = "Vector search failed: " ++ e) ∨
    (∃ e, msg = "OpenAI call failed: " ++ e) := by
  induction rows generalizing requests end_index with
  | nil => simp [processRows] at h
  | cons row rest ih =>
    simp only [processRows] at h
    by_cases hc : (!truthy row.requirement || !truthy row.response) = true
    · rw [if_pos hc] at h
      exact ih _ _ h
    · rw [if_neg hc] at h
      split at h
      · rename_i e heq
        injection h with h
        exact Or.inl ⟨e, h.symm⟩
      · split at h
        · rename_i e heq
          injection h with h
          exact Or.inr ⟨e, h.symm⟩
        · exact ih _ _ h

/-- C8: the batch is all-or-nothing. If a collaborator raised while the loop
was processing some row, the handler answers HTTP 500 with that message and
`batchUpdate` is never called (so operations accumulated for earlier rows are
discarded); whatever batch is ever submitted is the entire accumulated request
list passed in one call; and a loop abort is always a similarity-search or
chat-completion failure. -/
theorem collaborator_failure_aborts_whole_batch (co : Collab) (rows : List Row)
    (end_index : Nat) :
    (∀ msg, processRows co rows [] end_index = .error msg →
      generate_multiple_rfp_sections co rows end_index = ((500, msg), none)) ∧
    (∀ batch, (generate_multiple_rfp_sections co rows end_index).2 = some batch →
      ∃ c, processRows co rows [] end_index = .ok (batch, c)) ∧
    (∀ msg, processRows co rows [] end_index = .error msg →
      (∃ e, msg = "Vector search failed: " ++ e) ∨
      (∃ e, msg = "OpenAI call failed: " ++ e)) := by
  refine ⟨?_, ?_, ?_⟩
  · intro msg h
    simp [generate_multiple_rfp_sections, h]
  · intro batch hb
    unfold generate_multiple_rfp_sections at hb
    split at hb
    · simp at hb
    · rename_i reqs c heq
      split at hb
      · simp at hb
      · split at hb
        · simp only [Option.some.injEq] at hb
          exact ⟨c, by rw [heq, hb]⟩
        · simp only [Option.some.injEq] at hb
          exact ⟨c, by rw [heq, hb]⟩
  · intro msg h
    exact processRows_error_source co rows [] end_index msg h

/-- A collaborator assignment whose similarity search always raises. -/
def failingSearchCollab : Collab where
  similaritySearch := fun _ => .error "boom"
  chatCompletion := fun _ => .ok "Security\nWe comply."
  batchUpdate := fun _ => .ok ()

/-- Witness for C8: a valid row whose similarity search raises makes the
handler answer 500 with the search error and submit nothing. -/
theorem collaborator_failure_aborts_whole_batch_witness :
    generate_multiple_rfp_sections failingSearchCollab
        [⟨some "Security", some "We comply."⟩] 1 =
      ((500, "Vector search failed: boom"), none) :=
  (collaborator_failure_aborts_whole_batch failingSearchCollab
      [⟨some "Security", some "We comply."⟩] 1).1
    "Vector search failed: boom" (by rfl)

end RfpApi
